import Mathlib

/-!
Shallow embedding of `src/demo/app.py` (mozilla-ai/document-to-markdown), the
Gradio demo that converts an uploaded document to HTML/Markdown/JSON/text via
the external docling library.  Pure Python functions become Lean functions;
the module-global `pipeline_options` object becomes an explicit state value
threaded through `parse_document`; the generator's `yield`s become a list of
emitted signals; exceptions become `Except`.  External collaborators (the
docling converter, the Python `json` module, the filesystem) are modelled
through their input/output contract, as narrowly as the claims need.
-/

/-- The OCR-options classes imported from docling: each Python options class
(`EasyOcrOptions()`, `TesseractOcrOptions()`, `RapidOcrOptions()`,
`OcrMacOptions()`) is one constructor.  `TesseractCliOcrOptions` is imported
by the source but never used; it is omitted. -/
inductive OcrEngine where
  | easyOcr
  | tesseract
  | rapidOcr
  | ocrMac
deriving DecidableEq

/-- `AcceleratorDevice` (docling): the two values the source uses. -/
inductive AccelDevice where
  | cpu
  | cuda
deriving DecidableEq

/-- The mutable fields of the module-global `PdfPipelineOptions` object that
`src/demo/app.py` reads or writes (startup block lines 15-19 and
`parse_document` lines 42-54).  `images_scale` is a Python float assigned the
exactly-representable values 1.0 / 2 / 2.0, embedded as `ℚ`. -/
structure PipelineOptions where
  accelerator_device : AccelDevice
  cuda_use_flash_attention2 : Bool
  ocr_options : OcrEngine
  do_code_enrichment : Bool
  do_formula_enrichment : Bool
  generate_picture_images : Bool
  images_scale : ℚ
  do_picture_classification : Bool
  do_picture_description : Bool
  picture_description_prompt : String
deriving DecidableEq

/-- The prompt string assigned at line 52 of `src/demo/app.py`. -/
def promptText : String :=
  "Describe the image in three sentences. Be concise and accurate."

/-- The default prompt of docling's `smolvlm_picture_description` preset
before the source overwrites it (external library constant; its exact text
is irrelevant to every claim, only that line 52 replaces it). -/
def smolvlmDefaultPrompt : String := "Describe this image in a few sentences."

/-- The module-global `pipeline_options = PdfPipelineOptions()` after the
startup block at lines 15-19: docling defaults (all enrichment off, scale 1.0,
EasyOCR, no picture images), with the accelerator switched to CUDA plus
flash-attention when `torch.cuda.is_available()`. -/
def initialPipelineOptions (cudaPresent : Bool) : PipelineOptions :=
  { accelerator_device := if cudaPresent then .cuda else .cpu
    cuda_use_flash_attention2 := cudaPresent
    ocr_options := .easyOcr
    do_code_enrichment := false
    do_formula_enrichment := false
    generate_picture_images := false
    images_scale := 1
    do_picture_classification := false
    do_picture_description := false
    picture_description_prompt := smolvlmDefaultPrompt }

/-- The `engines_available` dict (lines 24-29) as a partial map from the
selector string to the options object it holds. -/
def engines_available (engine : String) : Option OcrEngine :=
  if engine = "EasyOCR (Default)" then some .easyOcr
  else if engine = "Tesseract" then some .tesseract
  else if engine = "RapidOCR" then some .rapidOcr
  else if engine = "OcrMac (Mac only)" then some .ocrMac
  else none

/-- Error raised when the engine selector string is not a key of
`engines_available`: in Python a `KeyError` from the dict subscript at
line 42, which the spec names ConfigurationError. -/
inductive ConfigErr where
  | configurationError (key : String)
deriving DecidableEq

/-- The option-building statements of `parse_document` (lines 42-54), in
source order, as one state update of the global `pipeline_options`:
each Python attribute assignment is one `let`-rebinding, so later
assignments to the same field (both `images_scale` and
`generate_picture_images` are assigned twice) overwrite earlier ones.
Fails with `ConfigErr` when the engine key is unknown (the dict subscript
raises before any field is assigned). -/
def set_options (po : PipelineOptions) (engine : String)
    (do_code_enrichment do_formula_enrichment : Bool)
    (do_picture_classification do_picture_description : Bool) :
    Except ConfigErr PipelineOptions :=
  match engines_available engine with
  | none => .error (.configurationError engine)
  | some engineOpts =>
    let po := { po with ocr_options := engineOpts }
    let po := { po with do_code_enrichment := do_code_enrichment }
    let po := { po with do_formula_enrichment := do_formula_enrichment }
    let po := { po with generate_picture_images := do_picture_classification }
    let po := { po with images_scale := 2 }
    let po := { po with do_picture_classification := do_picture_classification }
    let po := { po with do_picture_description := do_picture_description }
    let po := { po with picture_description_prompt := promptText }
    let po := { po with images_scale := 2 }
    let po := { po with generate_picture_images := true }
    .ok po

/-- JSON values, the shape of the mapping `export_to_dict` returns. -/
inductive JsonVal where
  | null
  | bool (b : Bool)
  | num (n : Int)
  | str (s : String)
  | arr (xs : List JsonVal)
  | obj (kvs : List (String × JsonVal))

/-- Minimal JSON string escaping, modelling the Python `json` module's
treatment of the characters the claims can exercise (backslash, quote,
newline, tab, carriage return); other characters pass through. -/
def jsonEscape (s : String) : String :=
  s.data.foldl (fun acc c =>
    if c = '\\' then acc ++ "\\\\"
    else if c = '"' then acc ++ "\\\""
    else if c = '\n' then acc ++ "\\n"
    else if c = '\t' then acc ++ "\\t"
    else if c = '\r' then acc ++ "\\r"
    else acc.push c) ""

/-- `n` spaces. -/
def spaces (n : Nat) : String :=
  List.asString (List.replicate n ' ')

mutual

/-- Modelled from the Python standard library contract of
`json.dump(obj, file, indent=4)` (an external collaborator, not repository
code): pretty-printed serialization where each nesting level indents by
`ind` spaces, items are separated by `,\n`, and keys use the `": "`
separator.  `lvl` is the current nesting depth. -/
def jsonDump (ind lvl : Nat) : JsonVal → String
  | .null => "null"
  | .bool true => "true"
  | .bool false => "false"
  | .num n => toString n
  | .str s => "\"" ++ jsonEscape s ++ "\""
  | .arr [] => "[]"
  | .arr (x :: xs) =>
      "[\n" ++ jsonDumpItems ind (lvl + 1) (x :: xs) ++
        "\n" ++ spaces (ind * lvl) ++ "]"
  | .obj [] => "\x7b\x7d"
  | .obj (kv :: kvs) =>
      "\x7b\n" ++ jsonDumpPairs ind (lvl + 1) (kv :: kvs) ++
        "\n" ++ spaces (ind * lvl) ++ "\x7d"

/-- Array elements of `jsonDump`, each on its own indented line. -/
def jsonDumpItems (ind lvl : Nat) : List JsonVal → String
  | [] => ""
  | [x] => spaces (ind * lvl) ++ jsonDump ind lvl x
  | x :: y :: xs =>
      spaces (ind * lvl) ++ jsonDump ind lvl x ++ ",\n" ++
        jsonDumpItems ind lvl (y :: xs)

/-- Object members of `jsonDump`, each `"key": value` on its own line. -/
def jsonDumpPairs (ind lvl : Nat) : List (String × JsonVal) → String
  | [] => ""
  | [(k, v)] =>
      spaces (ind * lvl) ++ "\"" ++ jsonEscape k ++ "\": " ++ jsonDump ind lvl v
  | (k, v) :: kv :: kvs =>
      spaces (ind * lvl) ++ "\"" ++ jsonEscape k ++ "\": " ++
        jsonDump ind lvl v ++ ",\n" ++ jsonDumpPairs ind lvl (kv :: kvs)

end

/-- A docling `DoclingDocument`, modelled through the only interface the
source uses (section 6 of the spec): its four export producers.  The external
exporters are functions of the document alone, so each is carried as data. -/
structure DoclingDocument where
  export_to_html : String
  export_to_markdown : String
  export_to_dict : JsonVal
  export_to_text : String

/-- `to_html` (lines 68-69): the HTML export paired with its format tag. -/
def to_html (docling_doc : DoclingDocument) : String × String :=
  (docling_doc.export_to_html, "html")

/-- `to_markdown` (lines 72-73). -/
def to_markdown (docling_doc : DoclingDocument) : String × String :=
  (docling_doc.export_to_markdown, "md")

/-- `to_json` (lines 76-77): returns the structured mapping, not text. -/
def to_json (docling_doc : DoclingDocument) : JsonVal × String :=
  (docling_doc.export_to_dict, "json")

/-- `to_text` (lines 80-81). -/
def to_text (docling_doc : DoclingDocument) : String × String :=
  (docling_doc.export_to_text, "txt")

/-- The content produced by an export button: `str` for html/md/txt,
a structured mapping for json (the `str | Dict` union of `download_file`). -/
inductive Content where
  | text (s : String)
  | dict (d : JsonVal)

/-- The four export format tags. -/
inductive FormatTag where
  | html
  | md
  | json
  | txt
deriving DecidableEq

/-- The per-button export dispatch: each UI button calls one of `to_html`,
`to_markdown`, `to_json`, `to_text` on the session's document. -/
def exportDoc (d : DoclingDocument) : FormatTag → Content × String
  | .html => (.text (to_html d).1, (to_html d).2)
  | .md => (.text (to_markdown d).1, (to_markdown d).2)
  | .json => (.dict (to_json d).1, (to_json d).2)
  | .txt => (.text (to_text d).1, (to_text d).2)

/-- docling's `InputFormat` values reachable through the upload widget's
extension filter (lines 119-133); all raster image extensions map to the
single IMAGE format. -/
inductive InputFormat where
  | pdf
  | docx
  | pptx
  | csv
  | md
  | image
  | html
  | xlsx
deriving DecidableEq

/-- An uploaded file: its path string and the input format docling detects
for it. -/
structure File where
  path : String
  format : InputFormat
deriving DecidableEq

/-- The `DocumentConverter` constructed at lines 58-62: its `format_options`
dict maps each input format to the pipeline options to use for it. -/
structure DocumentConverter where
  format_options : InputFormat → Option PipelineOptions

/-- The constructor call at lines 58-62:
`DocumentConverter(format_options={InputFormat.PDF: PdfFormatOption(pipeline_options=pipeline_options)})`
— only the PDF entry is present. -/
def mkConverter (po : PipelineOptions) : DocumentConverter :=
  { format_options := fun fmt => if fmt = .pdf then some po else none }

/-- A conversion failure of the external engine (unsupported format, corrupt
input, engine exception): docling's ConversionError, carried as a message. -/
inductive ConvErr where
  | conversionError (msg : String)
deriving DecidableEq

/-- The behaviour of one docling conversion backend: given the input format,
the effective pipeline options and the file path, produce a document or a
`ConvErr`.  Quantified over in the theorems, since docling is an external
collaborator. -/
def Backend : Type :=
  InputFormat → PipelineOptions → String → Except ConvErr DoclingDocument

/-- Modelled from the external docling interface: `converter.convert(path)`
runs the backend on the file with the options registered in `format_options`
for the file's format, or the library's default options when no entry is
registered for that format. -/
def converterConvert (backend : Backend) (libraryDefaults : PipelineOptions)
    (conv : DocumentConverter) (file : File) : Except ConvErr DoclingDocument :=
  backend file.format ((conv.format_options file.format).getD libraryDefaults) file.path

/-- One `yield` of the `parse_document` generator: the document output (absent
for the in-progress signal) and the status string. -/
structure Signal where
  doc : Option DoclingDocument
  status : String

/-- The ways `parse_document` can fail: the unknown-engine `KeyError`
(ConfigurationError) or the engine's ConversionError. -/
inductive ParseErr where
  | config (e : ConfigErr)
  | conversion (e : ConvErr)
deriving DecidableEq

/-- What one call of the `parse_document` generator does, once fully
consumed: the signals it yielded in order, the value of the module-global
`pipeline_options` afterwards, and whether it returned or raised. -/
structure ParseOutcome where
  signals : List Signal
  globalOptions : PipelineOptions
  result : Except ParseErr Unit

/-- `parse_document` (lines 32-65).  `po` is the module-global
`pipeline_options` when the call starts.  The generator first yields
`(None, "Parsing document... ⏳")`; then the option-building statements
mutate the global (`set_options`); a `KeyError` there propagates after the
first yield with the global untouched; then the converter built at
lines 58-62 converts the file; an engine failure propagates after the first
yield with the global already reconfigured; on success the generator yields
`(result.document, "Done ✅")` and finishes. -/
def parse_document (backend : Backend) (libraryDefaults : PipelineOptions)
    (po : PipelineOptions) (file : File) (engine : String)
    (do_code_enrichment do_formula_enrichment : Bool)
    (do_picture_classification do_picture_description : Bool) : ParseOutcome :=
  let sig1 : Signal := ⟨none, "Parsing document... ⏳"⟩
  match set_options po engine do_code_enrichment do_formula_enrichment
      do_picture_classification do_picture_description with
  | .error e => ⟨[sig1], po, .error (.config e)⟩
  | .ok po2 =>
    match converterConvert backend libraryDefaults (mkConverter po2) file with
    | .error e => ⟨[sig1], po2, .error (.conversion e)⟩
    | .ok doc => ⟨[sig1, ⟨some doc, "Done ✅"⟩], po2, .ok ()⟩

/-- The Gradio session state the export buttons touch: the `doc` `gr.State`,
the `output` textbox and the hidden `file_extension` text. -/
structure SessionState where
  doc : Option DoclingDocument
  output : Content
  file_extension : String

/-- One click of an export button (wiring at lines 185-205): reads the
session's document, writes `output` and `file_extension` from the matching
`to_*` handler, and leaves `doc` as it was.  When no document is in the
session state the handler receives `None`; `none` models the resulting
exception (the export methods do not exist on `None`). -/
def clickExport (st : SessionState) (t : FormatTag) : Option SessionState :=
  match st.doc with
  | none => none
  | some d =>
    let r := exportDoc d t
    some { st with output := r.1, file_extension := r.2 }

/-- Python's `IOError` (`OSError`) from a failed filesystem write, and the
`TypeError` `file.write` raises when handed a non-string. -/
inductive PyErr where
  | ioError (path : String)
  | typeError
deriving DecidableEq

/-- The working directory as the claims see it: which paths a write succeeds
on, and the content of each written file. -/
structure FileSystem where
  writeOk : String → Bool
  files : String → Option String

/-- Modelled from the OS interface: `open(path, "w")` followed by writing
`content` either replaces the file's content, or fails with `IOError`
(permissions, disk full) on the paths `writeOk` marks as failing. -/
def fsWrite (fs : FileSystem) (path content : String) :
    Except PyErr FileSystem :=
  if fs.writeOk path then
    .ok { fs with files := fun p => if p = path then some content else fs.files p }
  else
    .error (.ioError path)

/-- What `json.dump(doc, json_file, indent=4)` serializes: the `doc`
argument may be the structured mapping or a plain string (the
`str | Dict` parameter type of `download_file`); a string dumps as a JSON
string. -/
def contentToJson : Content → JsonVal
  | .text s => .str s
  | .dict d => d

/-- `download_file` (lines 83-91): for extension `"json"` it serializes
`doc` into `doc.json` with `json.dump(..., indent=4)`; for any other
extension it writes the raw text into `doc.<extension>` (a non-string `doc`
there raises `TypeError` from `file.write`).  There is no `try`/`except`:
a write failure propagates.  On success it returns `"Downloaded ✅"`. -/
def download_file (fs : FileSystem) (doc : Content) (file_extension : String) :
    Except PyErr (FileSystem × String) :=
  if file_extension = "json" then
    (fsWrite fs "doc.json" (jsonDump 4 0 (contentToJson doc))).map
      (fun fs2 => (fs2, "Downloaded ✅"))
  else
    match doc with
    | .text s =>
      (fsWrite fs ("doc." ++ file_extension) s).map
        (fun fs2 => (fs2, "Downloaded ✅"))
    | .dict _ => .error .typeError

/-- Project a field out of a successful `set_options` result (`none` when the
build failed). -/
def builtField {α : Type} (f : PipelineOptions → α)
    (r : Except ConfigErr PipelineOptions) : Option α :=
  r.toOption.map f

/-- A concrete document for instantiating the quantified theorems. -/
def docStub : DoclingDocument :=
  { export_to_html := "<html></html>"
    export_to_markdown := "# Title"
    export_to_dict := .obj [("schema_name", .str "DoclingDocument")]
    export_to_text := "Title" }

/-- A backend on which every conversion succeeds with `docStub`. -/
def backendOk : Backend := fun _ _ _ => .ok docStub

/-- A backend on which every conversion fails, as docling does on an
unsupported input format. -/
def backendFail : Backend := fun _ _ _ => .error (.conversionError "unsupported format")

/-- A concrete uploaded PDF file. -/
def pdfFile : File := { path := "report.pdf", format := .pdf }

/-- A concrete uploaded non-PDF file. -/
def docxFile : File := { path := "report.docx", format := .docx }

/-- A filesystem on which every write succeeds; no file written yet. -/
def fsAllOk : FileSystem := { writeOk := fun _ => true, files := fun _ => none }

/-- A filesystem on which every write fails (permissions, disk full). -/
def fsReadOnly : FileSystem := { writeOk := fun _ => false, files := fun _ => none }

/-- The options value `set_options` produces from the no-CUDA startup global
with engine "Tesseract" and all four flags false (used to instantiate the
quantified theorems at a concrete point). -/
def tesseractBuiltOptions : PipelineOptions :=
  { accelerator_device := .cpu
    cuda_use_flash_attention2 := false
    ocr_options := .tesseract
    do_code_enrichment := false
    do_formula_enrichment := false
    generate_picture_images := true
    images_scale := 2
    do_picture_classification := false
    do_picture_description := false
    picture_description_prompt := promptText }

/-- A concrete session state holding a parsed document. -/
def sessionWithDoc : SessionState :=
  { doc := some docStub, output := .text "", file_extension := "" }

/-- C1 fails on the code: at engine="Tesseract" with all four enrichment
flags false (starting from the startup global without CUDA), the options
produced by the build do NOT have `generate_picture_images = false` — line 54
of the source (`pipeline_options.generate_picture_images = True`)
unconditionally overwrites the conditional assignment of line 46. -/
theorem C1_counterexample :
    builtField PipelineOptions.generate_picture_images
      (set_options (initialPipelineOptions false) "Tesseract" false false false false)
      ≠ some false := by
  decide

/-- C1 amended: for a parse request with engine="Tesseract" and all four
enrichment flags false, the produced options have engine Tesseract and
`generate_picture_images = true` (image generation is unconditionally
enabled by the last assignment of the build), whatever the prior state of
the process-wide options object. -/
theorem C1_amended_images_always_on (po : PipelineOptions) :
    builtField PipelineOptions.ocr_options
      (set_options po "Tesseract" false false false false) = some OcrEngine.tesseract ∧
    builtField PipelineOptions.generate_picture_images
      (set_options po "Tesseract" false false false false) = some true := by
  constructor <;> rfl

/-- C2: whenever the engine key is known (so the build succeeds), if
picture-classification or picture-description is requested, the produced
options have `generate_picture_images = true` and `images_scale = 2.0`,
regardless of every other flag. -/
theorem C2_enrichment_forces_images (po : PipelineOptions) (engine : String)
    (ccode cformula cl de : Bool)
    (hk : (engines_available engine).isSome = true)
    (hcd : cl = true ∨ de = true) :
    builtField PipelineOptions.generate_picture_images
      (set_options po engine ccode cformula cl de) = some true ∧
    builtField PipelineOptions.images_scale
      (set_options po engine ccode cformula cl de) = some 2 := by
  obtain ⟨e, he⟩ := Option.isSome_iff_exists.mp hk
  unfold set_options
  rw [he]
  exact ⟨rfl, rfl⟩

/-- Witness for C2 at engine="RapidOCR", classification=true,
description=false. -/
theorem C2_witness :
    builtField PipelineOptions.generate_picture_images
      (set_options (initialPipelineOptions false) "RapidOCR" false false true false)
      = some true ∧
    builtField PipelineOptions.images_scale
      (set_options (initialPipelineOptions false) "RapidOCR" false false true false)
      = some 2 :=
  C2_enrichment_forces_images (initialPipelineOptions false) "RapidOCR"
    false false true false (by decide) (Or.inl rfl)

/-- C5: the build succeeds exactly when the engine selector is one of the
four keys of `engines_available`; each key yields the matching OCR engine in
the produced options; any other string fails with the configuration error
(the dict `KeyError`). -/
theorem C5_engine_selection (po : PipelineOptions)
    (ccode cformula cl de : Bool) (s : String) :
    ((∃ po2, set_options po s ccode cformula cl de = .ok po2) ↔
      (s = "EasyOCR (Default)" ∨ s = "Tesseract" ∨ s = "RapidOCR" ∨
        s = "OcrMac (Mac only)")) ∧
    builtField PipelineOptions.ocr_options
      (set_options po "EasyOCR (Default)" ccode cformula cl de) = some OcrEngine.easyOcr ∧
    builtField PipelineOptions.ocr_options
      (set_options po "Tesseract" ccode cformula cl de) = some OcrEngine.tesseract ∧
    builtField PipelineOptions.ocr_options
      (set_options po "RapidOCR" ccode cformula cl de) = some OcrEngine.rapidOcr ∧
    builtField PipelineOptions.ocr_options
      (set_options po "OcrMac (Mac only)" ccode cformula cl de) = some OcrEngine.ocrMac ∧
    (s ≠ "EasyOCR (Default)" → s ≠ "Tesseract" → s ≠ "RapidOCR" →
      s ≠ "OcrMac (Mac only)" →
      set_options po s ccode cformula cl de = .error (.configurationError s)) := by
  refine ⟨⟨fun ⟨po2, hok⟩ => ?_, fun h => ?_⟩, rfl, rfl, rfl, rfl, fun h1 h2 h3 h4 => ?_⟩
  · by_cases h1 : s = "EasyOCR (Default)"
    · exact Or.inl h1
    by_cases h2 : s = "Tesseract"
    · exact Or.inr (Or.inl h2)
    by_cases h3 : s = "RapidOCR"
    · exact Or.inr (Or.inr (Or.inl h3))
    by_cases h4 : s = "OcrMac (Mac only)"
    · exact Or.inr (Or.inr (Or.inr h4))
    · simp [set_options, engines_available, h1, h2, h3, h4] at hok
  · rcases h with h | h | h | h <;> subst h <;> exact ⟨_, rfl⟩
  · simp [set_options, engines_available, h1, h2, h3, h4]

/-- Witness for C5 at the unknown key "Foo": the build fails with the
configuration error naming that key. -/
theorem C5_witness :
    set_options (initialPipelineOptions false) "Foo" false false false false
      = .error (.configurationError "Foo") :=
  (C5_engine_selection (initialPipelineOptions false) false false false false
    "Foo").2.2.2.2.2 (by decide) (by decide) (by decide) (by decide)

/-- Helper: whatever the converter then does, the module-global
`pipeline_options` after a `parse_document` call whose option build
succeeded is the reconfigured options value. -/
theorem parse_document_globalOptions_eq (backend : Backend)
    (dflt po po2 : PipelineOptions) (file : File) (engine : String)
    (ccode cformula cl de : Bool)
    (hok : set_options po engine ccode cformula cl de = .ok po2) :
    (parse_document backend dflt po file engine ccode cformula cl de).globalOptions
      = po2 := by
  cases hc : converterConvert backend dflt (mkConverter po2) file <;>
    simp [parse_document, hok, hc]

/-- C3 fails on the code: one concrete `parse_document` call (engine
"Tesseract", all flags false, from the no-CUDA startup state) leaves the
process-wide `pipeline_options` different from what it was before the call —
the build is not a pure construction of a fresh value. -/
theorem C3_counterexample :
    (parse_document backendOk (initialPipelineOptions false)
        (initialPipelineOptions false) pdfFile "Tesseract"
        false false false false).globalOptions
      ≠ initialPipelineOptions false := by
  intro h
  have hb := congrArg PipelineOptions.generate_picture_images h
  simp [parse_document, set_options, engines_available, converterConvert,
    mkConverter, backendOk, initialPipelineOptions] at hb

/-- C3 amended: every parse request with a known engine key reconfigures the
shared process-wide `pipeline_options` object in place (the global after the
call is the built options value, not the value it had before; in particular
it differs from the prior state whenever that state had
`generate_picture_images = false`, e.g. the startup default).  Only the
accelerator fields set by the startup detection are left untouched by the
per-request mutation. -/
theorem C3_amended_global_mutation (backend : Backend)
    (dflt po po2 : PipelineOptions) (file : File) (engine : String)
    (ccode cformula cl de : Bool)
    (hok : set_options po engine ccode cformula cl de = .ok po2) :
    (parse_document backend dflt po file engine ccode cformula cl de).globalOptions
        = po2 ∧
    po2.accelerator_device = po.accelerator_device ∧
    po2.cuda_use_flash_attention2 = po.cuda_use_flash_attention2 ∧
    po2.generate_picture_images = true ∧
    (po.generate_picture_images = false →
      (parse_document backend dflt po file engine ccode cformula
        cl de).globalOptions ≠ po) := by
  have hg := parse_document_globalOptions_eq backend dflt po po2 file engine
    ccode cformula cl de hok
  unfold set_options at hok
  cases he : engines_available engine with
  | none => rw [he] at hok; cases hok
  | some e =>
    rw [he] at hok
    injection hok with h
    subst h
    refine ⟨hg, rfl, rfl, rfl, fun hf hco => ?_⟩
    rw [hg] at hco
    have hbool : true = po.generate_picture_images :=
      congrArg PipelineOptions.generate_picture_images hco
    rw [hf] at hbool
    cases hbool

/-- Witness for C3 amended at the concrete call of the counterexample. -/
theorem C3_witness :
    (parse_document backendOk (initialPipelineOptions false)
        (initialPipelineOptions false) pdfFile "Tesseract"
        false false false false).globalOptions = tesseractBuiltOptions ∧
    tesseractBuiltOptions.accelerator_device
        = (initialPipelineOptions false).accelerator_device ∧
    tesseractBuiltOptions.cuda_use_flash_attention2
        = (initialPipelineOptions false).cuda_use_flash_attention2 ∧
    tesseractBuiltOptions.generate_picture_images = true ∧
    ((initialPipelineOptions false).generate_picture_images = false →
      (parse_document backendOk (initialPipelineOptions false)
          (initialPipelineOptions false) pdfFile "Tesseract"
          false false false false).globalOptions ≠ initialPipelineOptions false) :=
  C3_amended_global_mutation backendOk (initialPipelineOptions false)
    (initialPipelineOptions false) tesseractBuiltOptions pdfFile "Tesseract"
    false false false false rfl

/-- C4: when the option build succeeds and the engine converts the file
successfully, `parse_document` emits exactly two signals in order — first
the in-progress signal with no document and status "Parsing document... ⏳",
then the terminal signal carrying the document with status "Done ✅" — and
returns without error. -/
theorem C4_two_signals (backend : Backend) (dflt po po2 : PipelineOptions)
    (file : File) (engine : String) (ccode cformula cl de : Bool)
    (doc : DoclingDocument)
    (hok : set_options po engine ccode cformula cl de = .ok po2)
    (hconv : converterConvert backend dflt (mkConverter po2) file = .ok doc) :
    (parse_document backend dflt po file engine ccode cformula cl de).signals
        = [⟨none, "Parsing document... ⏳"⟩, ⟨some doc, "Done ✅"⟩] ∧
    (parse_document backend dflt po file engine ccode cformula cl de).result
        = .ok () := by
  constructor <;> simp [parse_document, hok, hconv]

/-- Witness for C4: a concrete successful parse of a PDF file with the
Tesseract key emits exactly the two signals. -/
theorem C4_witness :
    (parse_document backendOk (initialPipelineOptions false)
        (initialPipelineOptions false) pdfFile "Tesseract"
        false false false false).signals
        = [⟨none, "Parsing document... ⏳"⟩, ⟨some docStub, "Done ✅"⟩] ∧
    (parse_document backendOk (initialPipelineOptions false)
        (initialPipelineOptions false) pdfFile "Tesseract"
        false false false false).result = .ok () :=
  C4_two_signals backendOk (initialPipelineOptions false)
    (initialPipelineOptions false) tesseractBuiltOptions pdfFile "Tesseract"
    false false false false docStub rfl rfl

/-- C6: when the external engine fails (unsupported format, engine
exception), `parse_document` raises the conversion error; at that point only
the first, absent-document signal has been emitted, so no signal carries a
document and the session's document output is never updated with one. -/
theorem C6_failure_single_signal (backend : Backend)
    (dflt po po2 : PipelineOptions) (file : File) (engine : String)
    (ccode cformula cl de : Bool) (msg : String)
    (hok : set_options po engine ccode cformula cl de = .ok po2)
    (hconv : converterConvert backend dflt (mkConverter po2) file
      = .error (.conversionError msg)) :
    (parse_document backend dflt po file engine ccode cformula cl de).signals
        = [⟨none, "Parsing document... ⏳"⟩] ∧
    (parse_document backend dflt po file engine ccode cformula cl de).result
        = .error (.conversion (.conversionError msg)) ∧
    ∀ s ∈ (parse_document backend dflt po file engine ccode cformula
      cl de).signals, s.doc = none := by
  refine ⟨?_, ?_, ?_⟩
  · simp [parse_document, hok, hconv]
  · simp [parse_document, hok, hconv]
  · intro s hs
    simp [parse_document, hok, hconv] at hs
    rw [hs]

/-- C7: on a filesystem where the writes succeed, `download_file` writes to
the file named `doc.<tag>`: for the json tag it serializes the content with
4-space-indented pretty printing, for every other tag it writes the raw text
unmodified, and in both cases it returns the confirmation status
"Downloaded ✅". -/
theorem C7_persist_to_file (fs : FileSystem) (d : JsonVal) (s ext : String)
    (hj : fs.writeOk "doc.json" = true)
    (ht : fs.writeOk ("doc." ++ ext) = true)
    (hne : ext ≠ "json") :
    (∃ fs2, download_file fs (.dict d) "json" = .ok (fs2, "Downloaded ✅") ∧
      fs2.files "doc.json" = some (jsonDump 4 0 d)) ∧
    (∃ fs2, download_file fs (.text s) ext = .ok (fs2, "Downloaded ✅") ∧
      fs2.files ("doc." ++ ext) = some s) := by
  constructor
  · unfold download_file
    rw [if_pos rfl]
    unfold fsWrite
    rw [hj]
    exact ⟨_, rfl, by simp [contentToJson]⟩
  · unfold download_file
    rw [if_neg hne]
    unfold fsWrite
    rw [ht]
    exact ⟨_, rfl, by simp⟩

/-- Witness for C7 on the all-writes-succeed filesystem, with the stub
document's mapping and its markdown text under tag "md". -/
theorem C7_witness :
    (∃ fs2, download_file fsAllOk (.dict docStub.export_to_dict) "json"
        = .ok (fs2, "Downloaded ✅") ∧
      fs2.files "doc.json" = some (jsonDump 4 0 docStub.export_to_dict)) ∧
    (∃ fs2, download_file fsAllOk (.text "# Title") "md"
        = .ok (fs2, "Downloaded ✅") ∧
      fs2.files ("doc." ++ "md") = some "# Title") :=
  C7_persist_to_file fsAllOk docStub.export_to_dict "# Title" "md"
    rfl rfl (by decide)

/-- C8 fails on the code: `download_file` has no exception handling, so on a
filesystem where the write fails it does not return any status result — the
IOError propagates (here: one concrete failing write, where the call yields
the error rather than any ok-status). -/
theorem C8_counterexample :
    ¬ ∃ fs2 st, download_file fsReadOnly (.text "# Title") "md"
      = .ok (fs2, st) := by
  rintro ⟨fs2, st, h⟩
  simp [download_file, fsWrite, fsReadOnly, Except.map] at h

/-- C8 amended: a failed filesystem write makes `download_file` raise the
IOError to its caller (no failed-status result is constructed by it; the
hosting UI framework is what keeps the session alive); the confirmation
status "Downloaded ✅" is returned exactly when the write succeeded. -/
theorem C8_amended_error_propagates (fs : FileSystem) (d : JsonVal)
    (s ext : String) (hne : ext ≠ "json") :
    (fs.writeOk ("doc." ++ ext) = false →
      download_file fs (.text s) ext = .error (.ioError ("doc." ++ ext))) ∧
    (fs.writeOk "doc.json" = false →
      download_file fs (.dict d) "json" = .error (.ioError "doc.json")) ∧
    ((∃ fs2 st, download_file fs (.text s) ext = .ok (fs2, st)) ↔
      fs.writeOk ("doc." ++ ext) = true) ∧
    (∀ fs2 st, download_file fs (.text s) ext = .ok (fs2, st) →
      st = "Downloaded ✅") := by
  refine ⟨fun hw => ?_, fun hw => ?_, ⟨fun ⟨fs2, st, h⟩ => ?_, fun hw => ?_⟩,
    fun fs2 st h => ?_⟩
  · unfold download_file
    rw [if_neg hne]
    unfold fsWrite
    rw [hw]
    rfl
  · unfold download_file
    rw [if_pos rfl]
    unfold fsWrite
    rw [hw]
    rfl
  · by_cases hw : fs.writeOk ("doc." ++ ext) = true
    · exact hw
    · rw [Bool.not_eq_true] at hw
      unfold download_file at h
      rw [if_neg hne] at h
      unfold fsWrite at h
      rw [hw] at h
      cases h
  · unfold download_file
    rw [if_neg hne]
    unfold fsWrite
    rw [hw]
    exact ⟨_, _, rfl⟩
  · by_cases hw : fs.writeOk ("doc." ++ ext) = true
    · unfold download_file at h
      rw [if_neg hne] at h
      unfold fsWrite at h
      rw [hw] at h
      simp only [Except.map] at h
      injection h with h2
      exact (congrArg Prod.snd h2).symm
    · rw [Bool.not_eq_true] at hw
      unfold download_file at h
      rw [if_neg hne] at h
      unfold fsWrite at h
      rw [hw] at h
      cases h

/-- Witness for C8 amended on the all-writes-fail filesystem with tag "md". -/
theorem C8_witness :
    (fsReadOnly.writeOk ("doc." ++ "md") = false →
      download_file fsReadOnly (.text "# Title") "md"
        = .error (.ioError ("doc." ++ "md"))) ∧
    (fsReadOnly.writeOk "doc.json" = false →
      download_file fsReadOnly (.dict JsonVal.null) "json"
        = .error (.ioError "doc.json")) ∧
    ((∃ fs2 st, download_file fsReadOnly (.text "# Title") "md"
        = .ok (fs2, st)) ↔ fsReadOnly.writeOk ("doc." ++ "md") = true) ∧
    (∀ fs2 st, download_file fsReadOnly (.text "# Title") "md"
        = .ok (fs2, st) → st = "Downloaded ✅") :=
  C8_amended_error_propagates fsReadOnly JsonVal.null "# Title" "md"
    (by decide)

/-- C9: exporting is a repeatable projection.  When the session holds a
document, clicking an export button computes the export pair from the
document alone and leaves the document untouched, so clicking the same
button again produces the identical session state — in particular the
identical output — both times. -/
theorem C9_export_repeatable (st : SessionState) (d : DoclingDocument)
    (t : FormatTag) (hdoc : st.doc = some d) :
    ∃ st1, clickExport st t = some st1 ∧
      st1.doc = some d ∧
      (st1.output, st1.file_extension) = exportDoc d t ∧
      clickExport st1 t = some st1 := by
  have h1 : clickExport st t = some
      { st with output := (exportDoc d t).1, file_extension := (exportDoc d t).2 } := by
    simp [clickExport, hdoc]
  refine ⟨_, h1, hdoc, rfl, ?_⟩
  simp [clickExport, hdoc]

/-- Witness for C9 on the concrete session holding the stub document,
exporting markdown twice. -/
theorem C9_witness :
    ∃ st1, clickExport sessionWithDoc FormatTag.md = some st1 ∧
      st1.doc = some docStub ∧
      (st1.output, st1.file_extension) = exportDoc docStub FormatTag.md ∧
      clickExport st1 FormatTag.md = some st1 :=
  C9_export_repeatable sessionWithDoc docStub FormatTag.md rfl

/-- Helper: the converter built by `parse_document` registers pipeline
options only under the PDF format, so converting a non-PDF file uses the
library defaults, whatever options were built. -/
theorem converterConvert_non_pdf (backend : Backend)
    (dflt po : PipelineOptions) (file : File) (h : file.format ≠ .pdf) :
    converterConvert backend dflt (mkConverter po) file
      = backend file.format dflt file.path := by
  unfold converterConvert mkConverter
  simp [h]

/-- C10: for a non-PDF input file, the signal trace and the result of
`parse_document` are independent of every UI-selected option — any two
parses with (possibly different) known engine keys, arbitrary enrichment
flags, and arbitrary prior global state convert identically, because the
converter attaches the built options only to the PDF input format. -/
theorem C10_non_pdf_options_independent (backend : Backend)
    (dflt po1 po2 : PipelineOptions) (file : File)
    (engine1 engine2 : String)
    (a1 b1 c1 d1 a2 b2 c2 d2 : Bool)
    (h1 : (engines_available engine1).isSome = true)
    (h2 : (engines_available engine2).isSome = true)
    (hfmt : file.format ≠ .pdf) :
    (parse_document backend dflt po1 file engine1 a1 b1 c1 d1).signals
       = (parse_document backend dflt po2 file engine2 a2 b2 c2 d2).signals ∧
    (parse_document backend dflt po1 file engine1 a1 b1 c1 d1).result
       = (parse_document backend dflt po2 file engine2 a2 b2 c2 d2).result := by
  obtain ⟨e1, he1⟩ := Option.isSome_iff_exists.mp h1
  obtain ⟨e2, he2⟩ := Option.isSome_iff_exists.mp h2
  obtain ⟨x1, hx1⟩ : ∃ x, set_options po1 engine1 a1 b1 c1 d1 = .ok x := by
    unfold set_options
    rw [he1]
    exact ⟨_, rfl⟩
  obtain ⟨x2, hx2⟩ : ∃ x, set_options po2 engine2 a2 b2 c2 d2 = .ok x := by
    unfold set_options
    rw [he2]
    exact ⟨_, rfl⟩
  have hcv1 := converterConvert_non_pdf backend dflt x1 file hfmt
  have hcv2 := converterConvert_non_pdf backend dflt x2 file hfmt
  cases hc : backend file.format dflt file.path with
  | error e =>
    rw [hc] at hcv1 hcv2
    constructor <;> simp [parse_document, hx1, hx2, hcv1, hcv2]
  | ok doc =>
    rw [hc] at hcv1 hcv2
    constructor <;> simp [parse_document, hx1, hx2, hcv1, hcv2]

/-- Witness for C10: converting a DOCX file with Tesseract+all-enrichment
versus RapidOCR+no-enrichment gives the same signals and result. -/
theorem C10_witness :
    (parse_document backendOk (initialPipelineOptions false)
        (initialPipelineOptions false) docxFile "Tesseract"
        true true true true).signals
      = (parse_document backendOk (initialPipelineOptions false)
        (initialPipelineOptions true) docxFile "RapidOCR"
        false false false false).signals ∧
    (parse_document backendOk (initialPipelineOptions false)
        (initialPipelineOptions false) docxFile "Tesseract"
        true true true true).result
      = (parse_document backendOk (initialPipelineOptions false)
        (initialPipelineOptions true) docxFile "RapidOCR"
        false false false false).result :=
  C10_non_pdf_options_independent backendOk (initialPipelineOptions false)
    (initialPipelineOptions false) (initialPipelineOptions true) docxFile
    "Tesseract" "RapidOCR" true true true true false false false false
    (by decide) (by decide) (by decide)

/-- Witness for C6: on a backend that rejects the file, the concrete parse
emits only the in-progress signal and raises the conversion error. -/
theorem C6_witness :
    (parse_document backendFail (initialPipelineOptions false)
        (initialPipelineOptions false) pdfFile "Tesseract"
        false false false false).signals
        = [⟨none, "Parsing document... ⏳"⟩] ∧
    (parse_document backendFail (initialPipelineOptions false)
        (initialPipelineOptions false) pdfFile "Tesseract"
        false false false false).result
        = .error (.conversion (.conversionError "unsupported format")) ∧
    ∀ s ∈ (parse_document backendFail (initialPipelineOptions false)
        (initialPipelineOptions false) pdfFile "Tesseract"
        false false false false).signals, s.doc = none :=
  C6_failure_single_signal backendFail (initialPipelineOptions false)
    (initialPipelineOptions false) tesseractBuiltOptions pdfFile "Tesseract"
    false false false false "unsupported format" rfl rfl
